import Mathlib

/-!
Shallow embedding of the `brodata` client library: a data-fetching and
reshaping client against two fixed web registries (BRO and DINO).  The
repository ships only its documentation, examples and packaging metadata;
the retrieval and parsing layer itself is therefore modelled from the
specification's description of the three components: (a) a query component
that builds requests to the two external registries, (b) per-object-kind
parsers that decode returned XML/CSV payloads into attribute dictionaries
and tabular blocks, and (c) an aggregation component that batches
per-extent queries into a combined geospatial result with optional
file/zip caching.
-/

namespace Brodata

/-- One data entry decoded from a raw csv/xml payload: either a scalar
field (an XML element or csv header line holding a single value) or one
row of a named tabular block (a repeated XML element or csv data line). -/
inductive Entry where
  | scalar (key value : String)
  | tableRow (table : String) (cells : List (String × String))
deriving DecidableEq, Repr

/-- Modelled from the spec: a raw payload exactly as downloaded from a
service (the original csv or xml text), represented by the sequence of
data entries the text encodes together with the delivered location the
payload carries.  The library stores and reloads this value unchanged,
in no format of its own design. -/
structure Payload where
  x : Int
  y : Int
  entries : List Entry
deriving DecidableEq, Repr

/-- A row of a tabular block: the cell value for each column name. -/
abbrev TableRow := List (String × String)

/-- A pandas DataFrame holding one tabular block: a list of rows. -/
abbrev DataFrame := List TableRow

/-- The scalar field carried by an entry, if any. -/
def Entry.scalarPair : Entry → Option (String × String)
  | .scalar k v => some (k, v)
  | .tableRow _ _ => none

/-- The row an entry contributes to the tabular block `name`, if any. -/
def Entry.rowOf (name : String) : Entry → Option TableRow
  | .tableRow t cells => if t = name then some cells else none
  | .scalar _ _ => none

/-- The name of the tabular block an entry belongs to, if any. -/
def Entry.tableName : Entry → Option String
  | .tableRow t _ => some t
  | .scalar _ _ => none

/-- Modelled from the spec: the scalar attributes a per-object-kind parser
decodes from a payload, in payload order, with values untouched. -/
def Payload.scalars (p : Payload) : List (String × String) :=
  p.entries.filterMap Entry.scalarPair

/-- Modelled from the spec: the tabular block `name` decoded from a
payload as a pandas DataFrame, rows in payload order, cells untouched. -/
def Payload.table (p : Payload) (name : String) : DataFrame :=
  p.entries.filterMap (Entry.rowOf name)

/-- The names of the tabular blocks present in a payload, without
duplicates. -/
def Payload.tableNames (p : Payload) : List String :=
  (p.entries.filterMap Entry.tableName).dedup

/-- A value of the attribute dictionary built by `to_dict`: either a
scalar attribute or a tabular block exposed as a DataFrame. -/
inductive DictValue where
  | scalar (value : String)
  | frame (df : DataFrame)
deriving DecidableEq, Repr

/-- The attribute dictionary of a parsed object. -/
abbrev Dict := List (String × DictValue)

/-- Modelled from the spec: the `to_dict` method shared by all brodata
classes, which adds all parsed data to a dictionary: every scalar
attribute, followed by every tabular block as a DataFrame. -/
def Payload.to_dict (p : Payload) : Dict :=
  p.scalars.map (fun kv => (kv.1, DictValue.scalar kv.2))
    ++ p.tableNames.map (fun n => (n, DictValue.frame (p.table n)))

/-- The two fixed external registries the library talks to. -/
inductive Service where
  | bro
  | dino
deriving DecidableEq, Repr

/-- A remote request the library builds: the registry it targets and the
key (bro-id, dino-number, or query path) it asks for. -/
structure Request where
  service : Service
  key : String
deriving DecidableEq, Repr

/-- Modelled from the spec: the state of the two remote registries, each
a store of raw payloads keyed by bro-id respectively dino-number. -/
structure Services where
  bro : List (String × Payload)
  dino : List (String × Payload)

/-- Modelled from the spec: HTTP retrieval of one record, dispatching a
request to the registry it targets and returning the raw payload. -/
def Services.perform (env : Services) (r : Request) : Option Payload :=
  match r.service with
  | .bro => env.bro.lookup r.key
  | .dino => env.dino.lookup r.key

/-- Tags telling the distinct typed classes of the parsing layer apart,
one per record kind. -/
inductive ObjectKind where
  | gmw
  | bhrgt
  | cpt
  | gld
  | dinoGrondwaterstand
deriving DecidableEq, Repr

/-- Modelled from the spec: the `GroundwaterMonitoringWell` class (module
`brodata.gmw`), the typed record for a well, wrapping the parsed payload. -/
structure GroundwaterMonitoringWell where
  payload : Payload
deriving DecidableEq, Repr

/-- Modelled from the spec: the `GeotechnicalBoreholeResearch` class
(module `brodata.bhr`), the typed record for a borehole. -/
structure GeotechnicalBoreholeResearch where
  payload : Payload
deriving DecidableEq, Repr

/-- Modelled from the spec: the `ConePenetrationTest` class (module
`brodata.cpt`), the typed record for a penetration test. -/
structure ConePenetrationTest where
  payload : Payload
deriving DecidableEq, Repr

/-- Modelled from the spec: the `GroundwaterLevelDossier` class (module
`brodata.gld`), the typed record for a level dossier. -/
structure GroundwaterLevelDossier where
  payload : Payload
deriving DecidableEq, Repr

/-- Modelled from the spec: the DINO `Grondwaterstand` class (module
`brodata.dino`), the typed record for a groundwater-head series. -/
structure Grondwaterstand where
  payload : Payload
deriving DecidableEq, Repr

def GroundwaterMonitoringWell.kind : ObjectKind := .gmw

def GeotechnicalBoreholeResearch.kind : ObjectKind := .bhrgt

def ConePenetrationTest.kind : ObjectKind := .cpt

def GroundwaterLevelDossier.kind : ObjectKind := .gld

def Grondwaterstand.kind : ObjectKind := .dinoGrondwaterstand

/-- The metadata of the tubes of a well, exposed as a DataFrame. -/
def GroundwaterMonitoringWell.monitoringTube (o : GroundwaterMonitoringWell) : DataFrame :=
  o.payload.table "monitoringTube"

/-- The descriptive borehole log of a borehole, exposed as a DataFrame. -/
def GeotechnicalBoreholeResearch.descriptiveBoreholeLog (o : GeotechnicalBoreholeResearch) : DataFrame :=
  o.payload.table "descriptiveBoreholeLog"

/-- The measured cone data of a penetration test, exposed as a DataFrame. -/
def ConePenetrationTest.conePenetrationTest (o : ConePenetrationTest) : DataFrame :=
  o.payload.table "conePenetrationTest"

/-- The observation data of a level dossier, exposed as a DataFrame. -/
def GroundwaterLevelDossier.observation (o : GroundwaterLevelDossier) : DataFrame :=
  o.payload.table "observation"

/-- The groundwater-head data of a DINO series, exposed as a DataFrame
(columns such as Peildatum and the head in its native unit of cm). -/
def Grondwaterstand.data (o : Grondwaterstand) : DataFrame :=
  o.payload.table "data"

def GroundwaterMonitoringWell.to_dict (o : GroundwaterMonitoringWell) : Dict :=
  o.payload.to_dict

def GeotechnicalBoreholeResearch.to_dict (o : GeotechnicalBoreholeResearch) : Dict :=
  o.payload.to_dict

def ConePenetrationTest.to_dict (o : ConePenetrationTest) : Dict :=
  o.payload.to_dict

def GroundwaterLevelDossier.to_dict (o : GroundwaterLevelDossier) : Dict :=
  o.payload.to_dict

def Grondwaterstand.to_dict (o : Grondwaterstand) : Dict :=
  o.payload.to_dict

/-- The request `from_bro_id` builds for a well: the BRO registry, keyed
by the bro-id. -/
def GroundwaterMonitoringWell.request (bro_id : String) : Request :=
  ⟨.bro, bro_id⟩

def GeotechnicalBoreholeResearch.request (bro_id : String) : Request :=
  ⟨.bro, bro_id⟩

def ConePenetrationTest.request (bro_id : String) : Request :=
  ⟨.bro, bro_id⟩

def GroundwaterLevelDossier.request (bro_id : String) : Request :=
  ⟨.bro, bro_id⟩

/-- The request `from_dino_nr` builds for a DINO series: the DINO
registry, keyed by the dino-number. -/
def Grondwaterstand.request (dino_nr : String) : Request :=
  ⟨.dino, dino_nr⟩

/-- Modelled from the spec: the `from_bro_id` class method of the BRO
classes, which downloads the record with the given bro-id from the BRO
registry and parses it into the typed record. -/
def GroundwaterMonitoringWell.from_bro_id (env : Services) (bro_id : String) : Option GroundwaterMonitoringWell :=
  (env.perform (GroundwaterMonitoringWell.request bro_id)).map GroundwaterMonitoringWell.mk

def GeotechnicalBoreholeResearch.from_bro_id (env : Services) (bro_id : String) : Option GeotechnicalBoreholeResearch :=
  (env.perform (GeotechnicalBoreholeResearch.request bro_id)).map GeotechnicalBoreholeResearch.mk

def ConePenetrationTest.from_bro_id (env : Services) (bro_id : String) : Option ConePenetrationTest :=
  (env.perform (ConePenetrationTest.request bro_id)).map ConePenetrationTest.mk

def GroundwaterLevelDossier.from_bro_id (env : Services) (bro_id : String) : Option GroundwaterLevelDossier :=
  (env.perform (GroundwaterLevelDossier.request bro_id)).map GroundwaterLevelDossier.mk

/-- Modelled from the spec: the `from_dino_nr` class method of the DINO
classes, which downloads the record with the given dino-number from the
DINO registry and parses it into the typed record. -/
def Grondwaterstand.from_dino_nr (env : Services) (dino_nr : String) : Option Grondwaterstand :=
  (env.perform (Grondwaterstand.request dino_nr)).map Grondwaterstand.mk

/-- Modelled from the spec: the local file store used for caching, a map
from file name to the raw payload stored in that file. -/
abbrev FileStore := List (String × Payload)

/-- Modelled from the spec: `from_bro_id` with a `to_file` argument, which
additionally saves the original payload, exactly as downloaded, under the
given file name. -/
def GroundwaterMonitoringWell.from_bro_id_to_file (env : Services) (bro_id to_file : String) (fs : FileStore) : Option (GroundwaterMonitoringWell × FileStore) :=
  (env.perform (GroundwaterMonitoringWell.request bro_id)).map fun p =>
    (GroundwaterMonitoringWell.mk p, (to_file, p) :: fs)

/-- Modelled from the spec: `from_dino_nr` with a `to_file` argument, which
additionally saves the original payload, exactly as downloaded, under the
given file name. -/
def Grondwaterstand.from_dino_nr_to_file (env : Services) (dino_nr to_file : String) (fs : FileStore) : Option (Grondwaterstand × FileStore) :=
  (env.perform (Grondwaterstand.request dino_nr)).map fun p =>
    (Grondwaterstand.mk p, (to_file, p) :: fs)

/-- Modelled from the spec: constructing a typed record from a local file
instead of the registry, by parsing the file's raw payload. -/
def GroundwaterMonitoringWell.fromFile (fs : FileStore) (fname : String) : Option GroundwaterMonitoringWell :=
  (fs.lookup fname).map GroundwaterMonitoringWell.mk

/-- Modelled from the spec: constructing a DINO series from a local file
instead of the registry, by parsing the file's raw payload. -/
def Grondwaterstand.fromFile (fs : FileStore) (fname : String) : Option Grondwaterstand :=
  (fs.lookup fname).map Grondwaterstand.mk

/-- A rectangular extent [xmin, xmax, ymin, ymax]. -/
structure Extent where
  xmin : Int
  xmax : Int
  ymin : Int
  ymax : Int
deriving DecidableEq, Repr

/-- Whether the point (x, y) lies inside the extent. -/
def Extent.containsPoint (e : Extent) (x y : Int) : Bool :=
  decide (e.xmin ≤ x) && decide (x ≤ e.xmax) && decide (e.ymin ≤ y) && decide (y ≤ e.ymax)

/-- Whether the object described by the payload is located in the extent. -/
def Payload.inExtent (p : Payload) (e : Extent) : Bool :=
  e.containsPoint p.x p.y

/-- `inner` is a sub-extent of `outer`. -/
def Extent.sub (inner outer : Extent) : Prop :=
  outer.xmin ≤ inner.xmin ∧ inner.xmax ≤ outer.xmax
    ∧ outer.ymin ≤ inner.ymin ∧ inner.ymax ≤ outer.ymax

instance (inner outer : Extent) : Decidable (inner.sub outer) := by
  unfold Extent.sub
  infer_instance

/-- One row of a combined geospatial table: the attribute dictionary of
one object together with its point geometry. -/
structure GeoRow where
  cells : Dict
  x : Int
  y : Int
deriving DecidableEq, Repr

/-- A geopandas GeoDataFrame: the combined geospatial table. -/
structure GeoDataFrame where
  rows : List GeoRow
deriving DecidableEq, Repr

/-- Whether a row's geometry lies inside the extent. -/
def GeoRow.inExtent (r : GeoRow) (e : Extent) : Bool :=
  e.containsPoint r.x r.y

/-- The columns of the combined table: every key appearing in any row's
attribute dictionary, without duplicates. -/
def GeoDataFrame.columns (gdf : GeoDataFrame) : List String :=
  (gdf.rows.flatMap fun r => r.cells.map Prod.fst).dedup

/-- The interface shared by the brodata classes: a `to_dict` method and a
point location, as used by `brodata.util.objects_to_gdf`. -/
class BroClass (α : Type) where
  to_dict : α → Dict
  location : α → Int × Int

instance : BroClass GroundwaterMonitoringWell :=
  ⟨GroundwaterMonitoringWell.to_dict, fun o => (o.payload.x, o.payload.y)⟩

instance : BroClass GeotechnicalBoreholeResearch :=
  ⟨GeotechnicalBoreholeResearch.to_dict, fun o => (o.payload.x, o.payload.y)⟩

instance : BroClass ConePenetrationTest :=
  ⟨ConePenetrationTest.to_dict, fun o => (o.payload.x, o.payload.y)⟩

instance : BroClass GroundwaterLevelDossier :=
  ⟨GroundwaterLevelDossier.to_dict, fun o => (o.payload.x, o.payload.y)⟩

instance : BroClass Grondwaterstand :=
  ⟨Grondwaterstand.to_dict, fun o => (o.payload.x, o.payload.y)⟩

/-- The row contributed by one object: its `to_dict` dictionary with its
location as geometry. -/
def objectRow {α : Type} [BroClass α] (o : α) : GeoRow :=
  ⟨BroClass.to_dict o, (BroClass.location o).1, (BroClass.location o).2⟩

/-- Modelled from the spec: `brodata.util.objects_to_gdf`, which combines
multiple brodata objects into a single GeoDataFrame by calling each
object's `to_dict` method, one row per object. -/
def objects_to_gdf {α : Type} [BroClass α] (objs : List α) : GeoDataFrame :=
  ⟨objs.map objectRow⟩

/-- Modelled from the spec: the query that asks the BRO registry which
objects are located in the extent (the characteristics request). -/
def characteristicsRequest (e : Extent) : Request :=
  ⟨.bro, "gmw/characteristics " ++ toString e.xmin ++ " " ++ toString e.xmax
    ++ " " ++ toString e.ymin ++ " " ++ toString e.ymax⟩

/-- Modelled from the spec: `brodata.gmw.get_characteristics`, which
queries the spatial region and returns the ids of the objects located in
the given extent. -/
def get_characteristics (env : Services) (e : Extent) : List String :=
  (env.bro.filter fun ip => ip.2.inExtent e).map Prod.fst

/-- A zip archive of downloaded objects: a map from member file name to
the raw payload stored in that member. -/
abbrev ZipFile := List (String × Payload)

/-- Modelled from the spec: `brodata.gmw.get_data_in_extent` against the
remote registry: query the spatial region, fetch every remote object
located in the extent via `from_bro_id`, merge the fetched objects into
one GeoDataFrame, and return alongside it the zip archive written when
`to_zip` is given (the original payloads keyed by object id). -/
def get_data_in_extent (env : Services) (e : Extent) : GeoDataFrame × ZipFile :=
  let ids := get_characteristics env e
  let fetched := ids.filterMap fun id =>
    (GroundwaterMonitoringWell.from_bro_id env id).map fun o => (id, o)
  (objects_to_gdf (fetched.map Prod.snd), fetched.map fun io => (io.1, io.2.payload))

/-- Modelled from the spec: `brodata.gmw.get_data_in_extent` reading a
previously written zip archive instead of the remote registry: parse every
member of the archive, keep only the objects inside the extent when one is
supplied, and merge them into one GeoDataFrame. -/
def get_data_in_extent_from_zip (z : ZipFile) (e : Option Extent) : GeoDataFrame :=
  let objs := z.map fun np => GroundwaterMonitoringWell.mk np.2
  let sel := match e with
    | none => objs
    | some ext => objs.filter fun o => o.payload.inExtent ext
  objects_to_gdf sel

/-- The remote requests issued by `from_bro_id`. -/
def from_bro_id_requests (bro_id : String) : List Request :=
  [GroundwaterMonitoringWell.request bro_id]

/-- The remote requests issued by `from_dino_nr`. -/
def from_dino_nr_requests (dino_nr : String) : List Request :=
  [Grondwaterstand.request dino_nr]

/-- The remote requests issued by `get_data_in_extent`: the spatial query
followed by one download per object located in the extent. -/
def get_data_in_extent_requests (env : Services) (e : Extent) : List Request :=
  characteristicsRequest e :: (get_characteristics env e).map GroundwaterMonitoringWell.request

/-- The registry stores records under distinct ids. -/
def keysNodup (l : List (String × Payload)) : Prop :=
  (l.map Prod.fst).Nodup

instance (l : List (String × Payload)) : Decidable (keysNodup l) := by
  unfold keysNodup
  infer_instance

theorem lookup_eq_some_of_mem {β : Type} {l : List (String × β)} {k : String} {v : β}
    (hn : (l.map Prod.fst).Nodup) (hm : (k, v) ∈ l) : l.lookup k = some v := by
  induction l with
  | nil => cases hm
  | cons hd tl ih =>
    rcases List.mem_cons.mp hm with h1 | h2
    · rw [← h1]
      simp [List.lookup]
    · have hn' := hn
      rw [List.map_cons, List.nodup_cons] at hn'
      have hk : k ≠ hd.1 := by
        intro he
        exact hn'.1 (he ▸ (List.mem_map.mpr ⟨(k, v), h2, rfl⟩))
      have hb : (k == hd.1) = false := by simp [hk]
      obtain ⟨k1, v1⟩ := hd
      rw [List.lookup_cons]
      simp only at hb
      rw [hb]
      exact ih hn'.2 h2

theorem from_bro_id_of_mem (env : Services) {id : String} {p : Payload}
    (hn : keysNodup env.bro) (hm : (id, p) ∈ env.bro) :
    GroundwaterMonitoringWell.from_bro_id env id = some ⟨p⟩ := by
  unfold GroundwaterMonitoringWell.from_bro_id Services.perform GroundwaterMonitoringWell.request
  simp only
  rw [lookup_eq_some_of_mem hn hm]
  rfl

theorem fetched_eq (env : Services) (hn : keysNodup env.bro)
    (sub : List (String × Payload)) (hsub : ∀ x ∈ sub, x ∈ env.bro) :
    ((sub.map Prod.fst).filterMap fun id =>
        (GroundwaterMonitoringWell.from_bro_id env id).map fun o => (id, o))
      = sub.map fun ip => (ip.1, GroundwaterMonitoringWell.mk ip.2) := by
  induction sub with
  | nil => rfl
  | cons hd tl ih =>
    have hhd : (hd.1, hd.2) ∈ env.bro := hsub hd (List.mem_cons_self hd tl)
    have htl : ∀ x ∈ tl, x ∈ env.bro := fun x hx => hsub x (List.mem_cons_of_mem hd hx)
    simp only [List.map_cons, List.filterMap_cons, from_bro_id_of_mem env hn hhd,
      Option.map_some']
    rw [ih htl]

theorem get_data_in_extent_eq (env : Services) (e : Extent) (hn : keysNodup env.bro) :
    get_data_in_extent env e =
      (objects_to_gdf ((env.bro.filter fun ip => ip.2.inExtent e).map
          fun ip => GroundwaterMonitoringWell.mk ip.2),
        env.bro.filter fun ip => ip.2.inExtent e) := by
  unfold get_data_in_extent get_characteristics
  have hsub : ∀ x ∈ env.bro.filter (fun ip => ip.2.inExtent e), x ∈ env.bro :=
    fun x hx => (List.mem_filter.mp hx).1
  simp only [fetched_eq env hn _ hsub, List.map_map, Function.comp]
  exact congrArg _ (List.map_id' _)

theorem mem_table_iff (p : Payload) (n : String) (row : TableRow) :
    row ∈ p.table n ↔ Entry.tableRow n row ∈ p.entries := by
  unfold Payload.table
  rw [List.mem_filterMap]
  constructor
  · rintro ⟨a, ha, hf⟩
    cases a with
    | scalar k v => cases hf
    | tableRow t cells =>
      simp only [Entry.rowOf] at hf
      split at hf
      · next ht =>
        injection hf with hf
        rw [ht, hf] at ha
        exact ha
      · cases hf
  · intro h
    exact ⟨Entry.tableRow n row, h, by simp [Entry.rowOf]⟩

theorem mem_scalars_iff (p : Payload) (k v : String) :
    (k, v) ∈ p.scalars ↔ Entry.scalar k v ∈ p.entries := by
  unfold Payload.scalars
  rw [List.mem_filterMap]
  constructor
  · rintro ⟨a, ha, hf⟩
    cases a with
    | scalar k1 v1 =>
      injection hf with hf
      have hk : k1 = k := congrArg Prod.fst hf
      have hv : v1 = v := congrArg Prod.snd hf
      rw [← hk, ← hv]
      exact ha
    | tableRow t cells => cases hf
  · intro h
    exact ⟨Entry.scalar k v, h, rfl⟩

/-- A sample raw well payload, for concrete evaluation. -/
def sampleWell : Payload :=
  ⟨118000, 439500,
    [Entry.scalar "broId" "GMW000000049567",
      Entry.tableRow "monitoringTube" [("tubeNumber", "1")]]⟩

/-- A sample raw DINO groundwater-head payload, for concrete evaluation. -/
def sampleDino : Payload :=
  ⟨117850, 439450,
    [Entry.scalar "locatie" "B38B0207",
      Entry.tableRow "data" [("Peildatum", "2024-01-01"), ("Stand cm tov NAP", "250")]]⟩

/-- A sample state of the two registries, for concrete evaluation. -/
def sampleEnv : Services :=
  ⟨[("GMW000000049567", sampleWell)], [("B38B0207", sampleDino)]⟩

/-- A sample extent, as in the examples. -/
def sampleExtent : Extent := ⟨117700, 118700, 439400, 440400⟩

/-- A sample sub-extent of `sampleExtent`. -/
def sampleSubExtent : Extent := ⟨117700, 118000, 439400, 440400⟩

/-- C2: for every record retrieved from a registry or read from a local
file, the per-object-kind parser decodes the payload into a typed object
whose `to_dict` method returns all parsed data — every scalar attribute
and every tabular block — and whose tabular sub-blocks are exposed as
pandas DataFrame attributes, for example
`GroundwaterMonitoringWell.monitoringTube` and
`GroundwaterLevelDossier.observation`. -/
theorem to_dict_returns_all_parsed_data (p : Payload) :
    (∀ k v, (k, v) ∈ p.scalars →
      (k, DictValue.scalar v) ∈ (GroundwaterMonitoringWell.mk p).to_dict) ∧
    (∀ n, n ∈ p.tableNames →
      (n, DictValue.frame (p.table n)) ∈ (GroundwaterMonitoringWell.mk p).to_dict) ∧
    (GroundwaterMonitoringWell.mk p).monitoringTube = p.table "monitoringTube" ∧
    (GroundwaterLevelDossier.mk p).observation = p.table "observation" := by
  refine ⟨?_, ?_, rfl, rfl⟩
  · intro k v h
    unfold GroundwaterMonitoringWell.to_dict Payload.to_dict
    exact List.mem_append_left _ (List.mem_map.mpr ⟨(k, v), h, rfl⟩)
  · intro n h
    unfold GroundwaterMonitoringWell.to_dict Payload.to_dict
    exact List.mem_append_right _ (List.mem_map.mpr ⟨n, h, rfl⟩)

/-- C2 witness: the concrete scalar attribute of a concrete downloaded
payload appears in its `to_dict` dictionary. -/
theorem to_dict_returns_all_parsed_data_witness :
    ("broId", "GMW000000049567") ∈ sampleWell.scalars ∧
    ("broId", DictValue.scalar "GMW000000049567")
      ∈ (GroundwaterMonitoringWell.mk sampleWell).to_dict :=
  ⟨by decide,
    (to_dict_returns_all_parsed_data sampleWell).1 "broId" "GMW000000049567" (by decide)⟩

/-- C7: measurement values pass through parsing unchanged apart from
reshaping — a row is in the `data` DataFrame of a DINO `Grondwaterstand`
(heads in their native unit of cm) or in the `observation` DataFrame of a
BRO `GroundwaterLevelDossier` (heads in their native unit of m) exactly
when the raw payload holds that row verbatim, and likewise every scalar
attribute; no unit conversion or other change is applied. -/
theorem values_pass_through_unchanged (p : Payload) :
    (∀ row, row ∈ (Grondwaterstand.mk p).data
      ↔ Entry.tableRow "data" row ∈ p.entries) ∧
    (∀ row, row ∈ (GroundwaterLevelDossier.mk p).observation
      ↔ Entry.tableRow "observation" row ∈ p.entries) ∧
    (∀ k v, (k, v) ∈ p.scalars ↔ Entry.scalar k v ∈ p.entries) :=
  ⟨fun row => mem_table_iff p "data" row,
    fun row => mem_table_iff p "observation" row,
    fun k v => mem_scalars_iff p k v⟩

/-- C7 witness: a concrete DINO head measurement of 250 cm is supplied to
the user exactly as it stands in the raw payload. -/
theorem values_pass_through_unchanged_witness :
    [("Peildatum", "2024-01-01"), ("Stand cm tov NAP", "250")]
      ∈ (Grondwaterstand.mk sampleDino).data :=
  ((values_pass_through_unchanged sampleDino).1
    [("Peildatum", "2024-01-01"), ("Stand cm tov NAP", "250")]).mpr (by decide)

/-- C9: `brodata.util.objects_to_gdf` combines a collection of brodata
objects into a single GeoDataFrame by calling each object's `to_dict`
method: one row per object, each object's row carries its whole
dictionary, and every key of an object's `to_dict` dictionary appears
among the columns with its value in that object's row. -/
theorem objects_to_gdf_spec {α : Type} [BroClass α] (objs : List α) :
    (objects_to_gdf objs).rows.length = objs.length ∧
    ∀ o ∈ objs, objectRow o ∈ (objects_to_gdf objs).rows ∧
      (objectRow o).cells = BroClass.to_dict o ∧
      ∀ k v, (k, v) ∈ BroClass.to_dict o →
        k ∈ (objects_to_gdf objs).columns ∧ (k, v) ∈ (objectRow o).cells := by
  refine ⟨by simp [objects_to_gdf], ?_⟩
  intro o ho
  have hrow : objectRow o ∈ (objects_to_gdf objs).rows :=
    List.mem_map.mpr ⟨o, ho, rfl⟩
  refine ⟨hrow, rfl, ?_⟩
  intro k v hkv
  refine ⟨?_, hkv⟩
  unfold GeoDataFrame.columns
  exact List.mem_dedup.mpr
    (List.mem_flatMap.mpr ⟨objectRow o, hrow, List.mem_map.mpr ⟨(k, v), hkv, rfl⟩⟩)

/-- C9 witness: the combination of one concrete well object. -/
theorem objects_to_gdf_spec_witness :
    (objects_to_gdf [GroundwaterMonitoringWell.mk sampleWell]).rows.length
        = [GroundwaterMonitoringWell.mk sampleWell].length ∧
    ∀ o ∈ [GroundwaterMonitoringWell.mk sampleWell],
      objectRow o ∈ (objects_to_gdf [GroundwaterMonitoringWell.mk sampleWell]).rows ∧
      (objectRow o).cells = BroClass.to_dict o ∧
      ∀ k v, (k, v) ∈ BroClass.to_dict o →
        k ∈ (objects_to_gdf [GroundwaterMonitoringWell.mk sampleWell]).columns ∧
        (k, v) ∈ (objectRow o).cells :=
  objects_to_gdf_spec [GroundwaterMonitoringWell.mk sampleWell]

/-- C3: caching preserves the raw payload — downloading with a `to_file`
argument stores the service's original payload unchanged under the given
file name, in no library-defined format, and constructing the object from
that saved file afterwards yields the same parsed data as the object
returned by the original download, both for a BRO class and for a DINO
class. -/
theorem to_file_round_trip (env : Services) (bro_id dino_nr fname gname : String)
    (fs : FileStore) (p q : Payload)
    (hb : env.bro.lookup bro_id = some p) (hd : env.dino.lookup dino_nr = some q) :
    GroundwaterMonitoringWell.from_bro_id_to_file env bro_id fname fs
        = some (⟨p⟩, (fname, p) :: fs) ∧
    ((fname, p) :: fs).lookup fname = some p ∧
    GroundwaterMonitoringWell.fromFile ((fname, p) :: fs) fname
        = GroundwaterMonitoringWell.from_bro_id env bro_id ∧
    Grondwaterstand.from_dino_nr_to_file env dino_nr gname fs
        = some (⟨q⟩, (gname, q) :: fs) ∧
    ((gname, q) :: fs).lookup gname = some q ∧
    Grondwaterstand.fromFile ((gname, q) :: fs) gname
        = Grondwaterstand.from_dino_nr env dino_nr := by
  have hself : ∀ (h : String) (r : Payload) (t : FileStore), ((h, r) :: t).lookup h = some r := by
    intro h r t
    simp [List.lookup]
  refine ⟨?_, hself fname p fs, ?_, ?_, hself gname q fs, ?_⟩
  · unfold GroundwaterMonitoringWell.from_bro_id_to_file Services.perform
      GroundwaterMonitoringWell.request
    simp only
    rw [hb]
    rfl
  · unfold GroundwaterMonitoringWell.fromFile GroundwaterMonitoringWell.from_bro_id
      Services.perform GroundwaterMonitoringWell.request
    simp only
    rw [hb, hself fname p fs]
  · unfold Grondwaterstand.from_dino_nr_to_file Services.perform Grondwaterstand.request
    simp only
    rw [hd]
    rfl
  · unfold Grondwaterstand.fromFile Grondwaterstand.from_dino_nr
      Services.perform Grondwaterstand.request
    simp only
    rw [hd, hself gname q fs]

/-- C3 witness: a concrete download of a DINO series and of a BRO well,
cached and reloaded. -/
theorem to_file_round_trip_witness :
    sampleEnv.bro.lookup "GMW000000049567" = some sampleWell ∧
    sampleEnv.dino.lookup "B38B0207" = some sampleDino ∧
    GroundwaterMonitoringWell.fromFile [("dl.xml", sampleWell)] "dl.xml"
        = GroundwaterMonitoringWell.from_bro_id sampleEnv "GMW000000049567" ∧
    Grondwaterstand.fromFile [("dl.csv", sampleDino)] "dl.csv"
        = Grondwaterstand.from_dino_nr sampleEnv "B38B0207" :=
  ⟨by decide, by decide,
    (to_file_round_trip sampleEnv "GMW000000049567" "B38B0207" "dl.xml" "dl.csv" []
      sampleWell sampleDino (by decide) (by decide)).2.2.1,
    (to_file_round_trip sampleEnv "GMW000000049567" "B38B0207" "dl.xml" "dl.csv" []
      sampleWell sampleDino (by decide) (by decide)).2.2.2.2.2⟩

/-- C5: the parsing layer covers wells, boreholes, penetration tests and
level dossiers with four distinct typed classes
(`GroundwaterMonitoringWell`, `GeotechnicalBoreholeResearch`,
`ConePenetrationTest`, `GroundwaterLevelDossier`), and for every valid
registry id each class constructs its typed record from the registry via
its `from_bro_id` class method. -/
theorem from_bro_id_constructs_each_kind (env : Services) (id : String) (p : Payload)
    (h : env.bro.lookup id = some p) :
    GroundwaterMonitoringWell.from_bro_id env id = some ⟨p⟩ ∧
    GeotechnicalBoreholeResearch.from_bro_id env id = some ⟨p⟩ ∧
    ConePenetrationTest.from_bro_id env id = some ⟨p⟩ ∧
    GroundwaterLevelDossier.from_bro_id env id = some ⟨p⟩ ∧
    [GroundwaterMonitoringWell.kind, GeotechnicalBoreholeResearch.kind,
      ConePenetrationTest.kind, GroundwaterLevelDossier.kind].Nodup := by
  unfold GroundwaterMonitoringWell.from_bro_id GeotechnicalBoreholeResearch.from_bro_id
    ConePenetrationTest.from_bro_id GroundwaterLevelDossier.from_bro_id
    Services.perform GroundwaterMonitoringWell.request GeotechnicalBoreholeResearch.request
    ConePenetrationTest.request GroundwaterLevelDossier.request
  simp only
  rw [h]
  exact ⟨rfl, rfl, rfl, rfl, by decide⟩

/-- C5 witness: each of the four classes constructs its record for a
concrete valid registry id. -/
theorem from_bro_id_constructs_each_kind_witness :
    sampleEnv.bro.lookup "GMW000000049567" = some sampleWell ∧
    (GroundwaterMonitoringWell.from_bro_id sampleEnv "GMW000000049567" = some ⟨sampleWell⟩ ∧
      GeotechnicalBoreholeResearch.from_bro_id sampleEnv "GMW000000049567" = some ⟨sampleWell⟩ ∧
      ConePenetrationTest.from_bro_id sampleEnv "GMW000000049567" = some ⟨sampleWell⟩ ∧
      GroundwaterLevelDossier.from_bro_id sampleEnv "GMW000000049567" = some ⟨sampleWell⟩ ∧
      [GroundwaterMonitoringWell.kind, GeotechnicalBoreholeResearch.kind,
        ConePenetrationTest.kind, GroundwaterLevelDossier.kind].Nodup) :=
  ⟨by decide, from_bro_id_constructs_each_kind sampleEnv "GMW000000049567" sampleWell (by decide)⟩

/-- C6: every remote request the library builds targets one of exactly
two fixed external registries — every `Service` is BRO or DINO — with the
BRO classes downloading a record keyed by its bro-id via `from_bro_id`,
the DINO classes downloading a record keyed by its dino-number via
`from_dino_nr`, and every request of the batch retrieval targeting BRO. -/
theorem requests_target_two_registries :
    (∀ s : Service, s = Service.bro ∨ s = Service.dino) ∧
    (∀ bro_id : String, ∀ r ∈ from_bro_id_requests bro_id,
      r.service = Service.bro ∧ r.key = bro_id) ∧
    (∀ env bro_id, GroundwaterMonitoringWell.from_bro_id env bro_id
      = Option.map GroundwaterMonitoringWell.mk
          (env.perform (GroundwaterMonitoringWell.request bro_id))) ∧
    (∀ dino_nr : String, ∀ r ∈ from_dino_nr_requests dino_nr,
      r.service = Service.dino ∧ r.key = dino_nr) ∧
    (∀ env dino_nr, Grondwaterstand.from_dino_nr env dino_nr
      = Option.map Grondwaterstand.mk (env.perform (Grondwaterstand.request dino_nr))) ∧
    (∀ env e, ∀ r ∈ get_data_in_extent_requests env e, r.service = Service.bro) := by
  refine ⟨?_, ?_, fun env id => rfl, ?_, fun env nr => rfl, ?_⟩
  · intro s
    cases s
    · exact Or.inl rfl
    · exact Or.inr rfl
  · intro bro_id r hr
    rw [List.mem_singleton.mp hr]
    exact ⟨rfl, rfl⟩
  · intro dino_nr r hr
    rw [List.mem_singleton.mp hr]
    exact ⟨rfl, rfl⟩
  · intro env e r hr
    rcases List.mem_cons.mp hr with h1 | h2
    · rw [h1]
      rfl
    · rcases List.mem_map.mp h2 with ⟨id, _, hid⟩
      rw [← hid]
      rfl

/-- C6 witness: the request built from a concrete bro-id targets the BRO
registry under that key. -/
theorem requests_target_two_registries_witness :
    (GroundwaterMonitoringWell.request "GMW000000049567").service = Service.bro ∧
    (GroundwaterMonitoringWell.request "GMW000000049567").key = "GMW000000049567" :=
  requests_target_two_registries.2.1 "GMW000000049567"
    (GroundwaterMonitoringWell.request "GMW000000049567") (by decide)

theorem from_zip_some_eq_filter (z : ZipFile) (ex : Extent) :
    (get_data_in_extent_from_zip z (some ex)).rows
      = (get_data_in_extent_from_zip z none).rows.filter (fun r => r.inExtent ex) := by
  unfold get_data_in_extent_from_zip objects_to_gdf
  simp only
  rw [List.filter_map, List.filter_map, List.filter_map]
  rfl

/-- C1: for every extent, the batch retrieval queries the spatial region,
fetches every remote object located in that extent, and merges the
fetched objects into one combined GeoDataFrame with one row per object;
the downloaded objects are additionally persisted to the zip archive
written when `to_zip` is given, and nothing outside the extent is fetched
or persisted. -/
theorem get_data_in_extent_spec (env : Services) (e : Extent) (hn : keysNodup env.bro) :
    ((get_data_in_extent env e).1.rows.length
        = (env.bro.filter fun ip => ip.2.inExtent e).length) ∧
    (∀ id p, (id, p) ∈ env.bro → p.inExtent e = true →
      objectRow (GroundwaterMonitoringWell.mk p) ∈ (get_data_in_extent env e).1.rows ∧
      (id, p) ∈ (get_data_in_extent env e).2) ∧
    (∀ r ∈ (get_data_in_extent env e).1.rows, ∃ id p, (id, p) ∈ env.bro ∧
      p.inExtent e = true ∧ r = objectRow (GroundwaterMonitoringWell.mk p)) ∧
    (∀ np ∈ (get_data_in_extent env e).2, np.2.inExtent e = true ∧ np ∈ env.bro) := by
  rw [get_data_in_extent_eq env e hn]
  refine ⟨?_, ?_, ?_, ?_⟩
  · simp [objects_to_gdf]
  · intro id p hm hext
    have hf : (id, p) ∈ env.bro.filter (fun ip => ip.2.inExtent e) :=
      List.mem_filter.mpr ⟨hm, hext⟩
    constructor
    · exact List.mem_map.mpr
        ⟨GroundwaterMonitoringWell.mk p, List.mem_map.mpr ⟨(id, p), hf, rfl⟩, rfl⟩
    · exact hf
  · intro r hr
    rcases List.mem_map.mp hr with ⟨o, ho, hro⟩
    rcases List.mem_map.mp ho with ⟨ip, hip, hoip⟩
    rcases List.mem_filter.mp hip with ⟨hmem, hext⟩
    exact ⟨ip.1, ip.2, hmem, hext, by rw [← hro, ← hoip]⟩
  · intro np hnp
    have h := List.mem_filter.mp hnp
    exact ⟨h.2, h.1⟩

/-- C1 witness: the batch retrieval over a concrete registry and extent. -/
theorem get_data_in_extent_spec_witness :
    keysNodup sampleEnv.bro ∧
    (((get_data_in_extent sampleEnv sampleExtent).1.rows.length
        = (sampleEnv.bro.filter fun ip => ip.2.inExtent sampleExtent).length) ∧
      (∀ id p, (id, p) ∈ sampleEnv.bro → p.inExtent sampleExtent = true →
        objectRow (GroundwaterMonitoringWell.mk p)
            ∈ (get_data_in_extent sampleEnv sampleExtent).1.rows ∧
        (id, p) ∈ (get_data_in_extent sampleEnv sampleExtent).2) ∧
      (∀ r ∈ (get_data_in_extent sampleEnv sampleExtent).1.rows, ∃ id p,
        (id, p) ∈ sampleEnv.bro ∧ p.inExtent sampleExtent = true ∧
        r = objectRow (GroundwaterMonitoringWell.mk p)) ∧
      (∀ np ∈ (get_data_in_extent sampleEnv sampleExtent).2,
        np.2.inExtent sampleExtent = true ∧ np ∈ sampleEnv.bro)) :=
  ⟨by decide, get_data_in_extent_spec sampleEnv sampleExtent (by decide)⟩

/-- C4: cache-read equivalence — reading back the zip archive written by
the bounded-extent retrieval, without contacting the remote service,
returns the same combined GeoDataFrame as the remote retrieval that
produced the archive. -/
theorem zip_read_equals_remote (env : Services) (e : Extent) (hn : keysNodup env.bro) :
    get_data_in_extent_from_zip (get_data_in_extent env e).2 none
      = (get_data_in_extent env e).1 := by
  rw [get_data_in_extent_eq env e hn]
  rfl

/-- C4 witness: the cache-read equivalence at a concrete registry and
extent. -/
theorem zip_read_equals_remote_witness :
    keysNodup sampleEnv.bro ∧
    get_data_in_extent_from_zip (get_data_in_extent sampleEnv sampleExtent).2 none
      = (get_data_in_extent sampleEnv sampleExtent).1 :=
  ⟨by decide, zip_read_equals_remote sampleEnv sampleExtent (by decide)⟩

/-- C8: extent filtering of an archive is monotone — for a zip archive
written by the bounded-extent retrieval and a sub-extent of the archived
region, reading the archive with that sub-extent returns exactly those
rows of the full-archive result whose locations lie inside the
sub-extent: a sublist, never additional rows. -/
theorem zip_subextent_filter (env : Services) (e inner : Extent) (_hsub : inner.sub e) :
    ((get_data_in_extent_from_zip (get_data_in_extent env e).2 (some inner)).rows
      = ((get_data_in_extent_from_zip (get_data_in_extent env e).2 none).rows.filter
          (fun r => r.inExtent inner))) ∧
    ((get_data_in_extent_from_zip (get_data_in_extent env e).2 (some inner)).rows.Sublist
      (get_data_in_extent_from_zip (get_data_in_extent env e).2 none).rows) := by
  constructor
  · exact from_zip_some_eq_filter _ inner
  · rw [from_zip_some_eq_filter _ inner]
    exact List.filter_sublist _

/-- C8 witness: the sub-extent read of a concrete archive. -/
theorem zip_subextent_filter_witness :
    sampleSubExtent.sub sampleExtent ∧
    (((get_data_in_extent_from_zip (get_data_in_extent sampleEnv sampleExtent).2
          (some sampleSubExtent)).rows
      = ((get_data_in_extent_from_zip (get_data_in_extent sampleEnv sampleExtent).2
            none).rows.filter (fun r => r.inExtent sampleSubExtent))) ∧
      ((get_data_in_extent_from_zip (get_data_in_extent sampleEnv sampleExtent).2
          (some sampleSubExtent)).rows.Sublist
        (get_data_in_extent_from_zip (get_data_in_extent sampleEnv sampleExtent).2
          none).rows)) :=
  ⟨by decide, zip_subextent_filter sampleEnv sampleExtent sampleSubExtent (by decide)⟩

end Brodata
